import Mathlib

/-!
# LVC-SSI framework: a shallow embedding of the trust-and-access-control engine

This file embeds, in Lean, the four components of the `lvc-ssi-framework`
repository — the DID registry (`src/did/did_manager.py`), the credential
subsystem (`src/vc/vc_manager.py`), the ZKP proof pipeline
(`src/zkp/zkp_prover.py`) and the access gateway
(`src/sig/simulation_gateway.py`) — and proves or refutes the design-level
claims about them.

Modelling conventions:
* Python dicts become association lists; `dictGet` returns the first binding
  (one binding per key is maintained by the update helpers, matching dict
  semantics).
* Wall-clock time is an explicit `now : Nat` argument (Unix seconds);
  ISO-8601 timestamps in the source are represented by their epoch value.
* Cryptography is symbolic: an environment supplies the private-to-public
  key correspondence, hash digests, and the behaviour of the external
  ZoKrates backend.  All claims are proved for every such environment, or
  refuted at a concrete one.
* A Python exception is an `Except`/`Option` failure; an `await` that can
  never complete (a second acquisition of a non-reentrant `asyncio.Lock` by
  the task already holding it) is an explicit `hang` outcome.
-/

namespace LvcSsi

/-- String-to-string association list standing in for a Python dict. -/
abbrev Dict := List (String × String)

/-- Python `d[k]` / `d.get(k)`: first binding for the key, if any. -/
def dictGet (d : Dict) (k : String) : Option String :=
  (d.find? (fun p => p.fst = k)).map (·.snd)

/-- Python `{**a, **b}`: bindings of `b` shadow bindings of `a`.
Lookup order makes `b`'s entries win. -/
def dictMergePy (a b : Dict) : Dict := b ++ a

/-- Serialisation of a dict, standing in for `json.dumps(inputs, sort_keys=True)`
as the argument of a hash: equal lists serialise equally. -/
def serializeDict (d : Dict) : String :=
  String.intercalate "," (d.map (fun p => p.fst ++ "=" ++ p.snd))

/-! ## Credential data model (`src/vc/vc_manager.py`) -/

/-- The credential payload built by `issue_credential` (everything except the
`proof` envelope): `id`, `type`, `issuer`, `issuanceDate`, `expirationDate`,
`credentialSubject`. -/
structure CredCore where
  id : String
  typeList : List String
  issuer : String
  issuanceDate : Nat
  expirationDate : Nat
  credentialSubject : Dict
deriving DecidableEq, Repr

/-- A JSON value as it occurs in the JWT payload dict built at issuance. -/
inductive JVal where
  | s (v : String)
  | n (v : Nat)
  | vc (c : CredCore)
deriving DecidableEq, Repr

/-- Lookup in a JWT payload dict (`payload["k"]` returns `none` = `KeyError`). -/
def jGet (p : List (String × JVal)) (k : String) : Option JVal :=
  (p.find? (fun q => q.fst = k)).map (·.snd)

/-- A signed JWT: the claims dict together with the private key (PEM) that
produced the signature over the encoded header/payload. -/
structure JwtToken where
  payload : List (String × JVal)
  signedWith : String
deriving DecidableEq, Repr

/-- The `proof` envelope attached by `issue_credential`
(`type`/`created`/`jwt`; the other envelope fields are derived text). -/
structure CredProof where
  ptype : String
  created : Nat
  jwt : JwtToken
deriving DecidableEq, Repr

/-- A verifiable credential: the payload plus the optional proof envelope
(`credential["proof"]` raises `KeyError` when absent). -/
structure Credential extends CredCore where
  proof : Option CredProof
deriving DecidableEq, Repr

/-- Symbolic asymmetric cryptography: `pubOf` maps a private-key PEM to the
matching public-key PEM.  `jwt.decode(token, pub)` succeeds exactly when
`pub` matches the key that signed the token. -/
structure CryptoEnv where
  pubOf : String → String

/-- `jwt.decode(token, public_key, ...)`: returns the claims dict when the
signature verifies under the given public key, otherwise fails
(`InvalidSignatureError`, caught by the caller). -/
def jwtDecode (env : CryptoEnv) (tok : JwtToken) (pubPem : String) :
    Option (List (String × JVal)) :=
  if env.pubOf tok.signedWith = pubPem then some tok.payload else none

/-! ## VCManager state and operations -/

/-- `VCManager` state: `issued_vcs`, `revoked_vcs`, `verification_cache`
(result, cached-at timestamp). -/
structure VCState where
  issued_vcs : List (String × Credential)
  revoked_vcs : List String
  verification_cache : List (String × (Bool × Nat))
deriving DecidableEq, Repr

/-- `VCManager.cache_ttl = 300` seconds. -/
def vc_cache_ttl : Nat := 300

/-- Fresh `VCManager()` state. -/
def vcInit : VCState := { issued_vcs := [], revoked_vcs := [], verification_cache := [] }

/-- Dict-style insert for the verification cache (one entry per key). -/
def vcCachePut (cache : List (String × (Bool × Nat))) (k : String) (b : Bool) (now : Nat) :
    List (String × (Bool × Nat)) :=
  (k, (b, now)) :: cache.filter (fun e => e.fst ≠ k)

/-- `VCManager.issue_credential`: builds the credential payload, signs the JWT
whose claims are `{iss, sub, iat, exp, jti, vc}`, attaches the proof envelope
and stores the credential under `issued_vcs[credential_id]`. -/
def issue_credential (st : VCState) (subject_did issuer_did credential_type : String)
    (attributes : Dict) (private_key_pem : String) (validity_days : Nat) (now : Nat) :
    Credential × VCState :=
  let credential_id := "vc:" ++ subject_did ++ ":" ++ credential_type ++ ":" ++ toString now
  let expiration_date := now + validity_days * 86400
  let core : CredCore :=
    { id := credential_id
      typeList := ["VerifiableCredential", credential_type]
      issuer := issuer_did
      issuanceDate := now
      expirationDate := expiration_date
      credentialSubject := dictMergePy [("id", subject_did)] attributes }
  let payload : List (String × JVal) :=
    [("iss", .s issuer_did), ("sub", .s subject_did), ("iat", .n now),
     ("exp", .n expiration_date), ("jti", .s credential_id), ("vc", .vc core)]
  let cred : Credential :=
    { toCredCore := core
      proof := some { ptype := "RsaSignature2018", created := now
                      jwt := { payload := payload, signedWith := private_key_pem } } }
  (cred, { st with issued_vcs := (credential_id, cred) ::
                     st.issued_vcs.filter (fun e => e.fst ≠ credential_id) })

/-- Body of `verify_credential` after the cache check: revocation-set
membership, expiration, then the `try` block (load key, `jwt.decode`,
`payload["id"] == credential["id"]`), every exception caught and turned into
a cached `False`. -/
def verify_core (env : CryptoEnv) (st : VCState) (credential : Credential)
    (issuer_public_key_pem : String) (now : Nat) (cache_key : String) : Bool × VCState :=
  if credential.id ∈ st.revoked_vcs then
    (false, { st with verification_cache := vcCachePut st.verification_cache cache_key false now })
  else if credential.expirationDate < now then
    (false, { st with verification_cache := vcCachePut st.verification_cache cache_key false now })
  else
    let res : Option Bool := do
      let prf ← credential.proof
      let payload ← jwtDecode env prf.jwt issuer_public_key_pem
      let idVal ← jGet payload "id"
      pure (idVal = JVal.s credential.id)
    match res with
    | some b =>
      (b, { st with verification_cache := vcCachePut st.verification_cache cache_key b now })
    | none =>
      (false, { st with verification_cache := vcCachePut st.verification_cache cache_key false now })

/-- `VCManager.verify_credential`: cache lookup keyed by
`f"{credential['id']}:{public_key_pem}"` with lazy eviction of entries whose
age reaches `cache_ttl`, then `verify_core`. -/
def verify_credential (env : CryptoEnv) (st : VCState) (credential : Credential)
    (issuer_public_key_pem : String) (now : Nat) : Bool × VCState :=
  let cache_key := credential.id ++ ":" ++ issuer_public_key_pem
  match st.verification_cache.find? (fun e => e.fst = cache_key) with
  | some e =>
    if now - e.snd.snd < vc_cache_ttl then (e.snd.fst, st)
    else
      let st1 := { st with
        verification_cache := st.verification_cache.filter (fun e => e.fst ≠ cache_key) }
      verify_core env st1 credential issuer_public_key_pem now cache_key
  | none => verify_core env st credential issuer_public_key_pem now cache_key

/-- `VCManager.revoke_credential`: adds the id to `revoked_vcs` only when it
is present in `issued_vcs`; otherwise returns `False` leaving the state
untouched. -/
def revoke_credential (st : VCState) (credential_id : String) : Bool × VCState :=
  if (st.issued_vcs.find? (fun e => e.fst = credential_id)).isSome then
    (true, { st with revoked_vcs := credential_id :: st.revoked_vcs })
  else
    (false, st)

/-! ## DID registry (`src/did/did_manager.py`) -/

/-- One entry of a DID document's `verificationMethod` list. -/
structure VMeth where
  publicKeyPem : String
  privateKeyPem : String
deriving DecidableEq, Repr

/-- A DID document as built by `create_did` / stored in the durable file. -/
structure DIDDoc where
  id : String
  verificationMethod : List VMeth
  participantType : String
deriving DecidableEq, Repr

/-- `DIDManager` state: in-memory `did_documents`, the TTL `did_cache`
(document, cached-at timestamp), and the durable storage file
(`none` = the file does not exist). -/
structure DIDState where
  did_documents : List (String × DIDDoc)
  did_cache : List (String × (DIDDoc × Nat))
  storage : Option (List (String × DIDDoc))
deriving DecidableEq, Repr

/-- `DIDManager.cache_ttl = 300` seconds. -/
def did_cache_ttl : Nat := 300

/-- Fresh `DIDManager()` state before anything is persisted. -/
def didInit : DIDState := { did_documents := [], did_cache := [], storage := none }

/-- Outcome of a DID-registry coroutine: a value with the post state, or a
deadlocked `await` (the task re-acquires the non-reentrant `asyncio.Lock` it
already holds and suspends forever).  `hang` carries the state as mutated up
to the suspension point. -/
inductive DResult (α : Type) where
  | ok (v : α) (st : DIDState)
  | hang (st : DIDState)
deriving DecidableEq, Repr

/-- Dict-style insert for the DID cache. -/
def didCachePut (cache : List (String × (DIDDoc × Nat))) (did : String) (doc : DIDDoc)
    (now : Nat) : List (String × (DIDDoc × Nat)) :=
  (did, (doc, now)) :: cache.filter (fun e => e.fst ≠ did)

/-- `DIDManager._save_documents`: writes `did_documents` to the storage file
under `async with self._lock`.  When the calling task already holds that
non-reentrant lock (`underLock = true`), the acquisition suspends forever. -/
def save_documents (st : DIDState) (underLock : Bool) : DResult Unit :=
  if underLock then .hang st
  else .ok () { st with storage := some st.did_documents }

/-- Key generation and `didkit.key_to_did`: the environment draws an RSA key
pair (public PEM, private PEM) from a seed and derives the DID from the
public-key JWK. -/
structure DIDEnv where
  genKey : Nat → String × String
  keyToDid : String → String

/-- `DIDManager.create_did`: generates the key pair, derives the DID, builds
the document, and — while holding `self._lock` — inserts it into the cache
and the in-memory map and then awaits `_save_documents()`, which re-acquires
the same lock. -/
def create_did (env : DIDEnv) (st : DIDState) (participant_type : String)
    (seed : Nat) (now : Nat) : DResult (String × DIDDoc) :=
  let keys := env.genKey seed
  let did := env.keyToDid keys.fst
  let doc : DIDDoc :=
    { id := did
      verificationMethod := [{ publicKeyPem := keys.fst, privateKeyPem := keys.snd }]
      participantType := participant_type }
  let st1 := { st with
    did_cache := didCachePut st.did_cache did doc now
    did_documents := (did, doc) :: st.did_documents.filter (fun e => e.fst ≠ did) }
  match save_documents st1 true with
  | .ok _ st2 => .ok (did, doc) st2
  | .hang st2 => .hang st2

/-- The part of `resolve_did` after the cache check: in-memory map, then a
reload from storage.  `_load_documents` is a no-op when the storage file does
not exist; when it exists, it re-acquires the lock already held by
`resolve_did` and the task suspends forever. -/
def resolve_mem (st : DIDState) (did : String) (now : Nat) : DResult (Option DIDDoc) :=
  match st.did_documents.find? (fun e => e.fst = did) with
  | some e => .ok (some e.snd) { st with did_cache := didCachePut st.did_cache did e.snd now }
  | none =>
    match st.storage with
    | some _ => .hang st
    | none => .ok none st

/-- `DIDManager.resolve_did`: unexpired cache hit returns immediately; an
expired entry is deleted and resolution falls through to the in-memory map
and the storage reload. -/
def resolve_did (st : DIDState) (did : String) (now : Nat) : DResult (Option DIDDoc) :=
  match st.did_cache.find? (fun e => e.fst = did) with
  | some e =>
    if now - e.snd.snd < did_cache_ttl then .ok (some e.snd.fst) st
    else
      resolve_mem { st with did_cache := st.did_cache.filter (fun e => e.fst ≠ did) } did now
  | none => resolve_mem st did now

/-! ## ZKP proof pipeline (`src/zkp/zkp_prover.py`) -/

/-- Outcome of one ZoKrates subprocess invocation
(`_run_zokrates_command`): success, a non-zero exit
(`subprocess.CalledProcessError`, re-raised as `RuntimeError`), or exceeding
the timeout (re-raised as `RuntimeError`). -/
inductive BackendRes where
  | ok
  | nonZero (stderr : String)
  | timeout
deriving DecidableEq, Repr

/-- The metadata dict attached to a generated proof
(`credential_id` / `proof_type` / `generated_at`). -/
structure ProofMeta where
  credential_id : String
  proof_type : String
  generated_at : Nat
deriving DecidableEq, Repr

/-- A proof dict as it flows through the pipeline: the backend-opaque blob
read from `proof.json`, the optional `metadata` dict, and the optional
`proof_id` key (the dicts cached in `proof_cache` do NOT carry one —
accessing `proof["proof_id"]` on them raises `KeyError`). -/
structure ProofDict where
  blob : String
  metadata : Option ProofMeta
  proof_id_field : Option String
deriving DecidableEq, Repr

/-- The response dict returned by `generate_proof`. -/
structure ProofResponse where
  proof_id : String
  proof_type : String
  credential_id : String
  proof : ProofDict
deriving DecidableEq, Repr

/-- `ZKPProver` mutable state: the content-hash compile/setup caches, the
witness cache, the proof cache keyed by `proof_id`, and the verifier-result
cache keyed by `f"{circuit_name}:{proof_id}"` (only `True` is ever stored). -/
structure ProverState where
  circuit_cache : List String
  setup_cache : List String
  witness_cache : List String
  proof_cache : List (String × ProofDict)
  verifier_cache : List String
deriving DecidableEq, Repr

/-- Fresh `ZKPProver()` state. -/
def proverInit : ProverState :=
  { circuit_cache := [], setup_cache := [], witness_cache := [],
    proof_cache := [], verifier_cache := [] }

/-- Environment of the proof pipeline: which circuit source files exist,
their content hashes, the digests used for ids and field encodings, the
behaviour of each backend subprocess, and the contents the backend writes to
`proof.json`. -/
structure PEnv where
  circuitExists : String → Bool
  fileHash : String → String
  inputsHash : String → String
  compileRes : String → BackendRes
  setupRes : String → BackendRes
  witnessRes : String → BackendRes
  proveRes : String → BackendRes
  proofIdHash : String → String
  fieldHash : String → Nat
  proofJson : String → ProofDict

/-- `ZKPProver._generate_proof_id`: a deterministic digest
(base64 of an HKDF-SHA256 derivation) of `f"{credential_id}:{proof_type}"`.
The credential's issuance date is not an input. -/
def generate_proof_id (env : PEnv) (credential_id proof_type : String) : String :=
  env.proofIdHash (credential_id ++ ":" ++ proof_type)

/-- `ZKPProver._compile_circuit`: missing source file is fatal; otherwise a
content-hash cache hit skips the backend, and a backend failure is raised as
`RuntimeError`.  The `Nat` counts backend subprocess invocations. -/
def compile_circuit (env : PEnv) (st : ProverState) (circuit_name : String) :
    Except String Unit × ProverState × Nat :=
  if env.circuitExists circuit_name = false then
    (.error ("Circuit file not found: " ++ circuit_name ++ ".zok"), st, 0)
  else
    let h := env.fileHash circuit_name
    if h ∈ st.circuit_cache then (.ok (), st, 0)
    else
      match env.compileRes circuit_name with
      | .ok => (.ok (), { st with circuit_cache := h :: st.circuit_cache }, 1)
      | .nonZero e => (.error ("Error compiling circuit: ZoKrates command failed: " ++ e), st, 1)
      | .timeout => (.error "Error compiling circuit: ZoKrates command timed out", st, 1)

/-- `ZKPProver._setup_circuit`: compiles first, then performs the one-time
setup unless the content-hash setup cache already holds it. -/
def setup_circuit (env : PEnv) (st : ProverState) (circuit_name : String) :
    Except String Unit × ProverState × Nat :=
  match compile_circuit env st circuit_name with
  | (.error e, st1, n) => (.error e, st1, n)
  | (.ok _, st1, n) =>
    let h := env.fileHash circuit_name
    if h ∈ st1.setup_cache then (.ok (), st1, n)
    else
      match env.setupRes circuit_name with
      | .ok => (.ok (), { st1 with setup_cache := h :: st1.setup_cache }, n + 1)
      | .nonZero e => (.error ("Error setting up circuit: ZoKrates command failed: " ++ e), st1, n + 1)
      | .timeout => (.error "Error setting up circuit: ZoKrates command timed out", st1, n + 1)

/-- Decimal digit-list accumulator for `decToNat?`. -/
def decDigitsToNat : List Char → Nat → Option Nat
  | [], acc => some acc
  | c :: cs, acc =>
    if c.isDigit then decDigitsToNat cs (acc * 10 + (c.toNat - 48)) else none

/-- Parse a non-empty decimal string (the timestamp round-trip of
`datetime.fromisoformat` on the serialised epoch value; a malformed string
raises, modelled as `none`). -/
def decToNat? (s : String) : Option Nat :=
  if s.data.isEmpty then none else decDigitsToNat s.data 0

/-- The witness-input field encoding of `_compute_witness`: digests for
`credential_id` and `issuer`, the expiration timestamp, the fixed
`credential_type` constant, and the role/clearance enumeration.  Each dict
lookup is a potential `KeyError`. -/
def witness_field_inputs (env : PEnv) (inputs : Dict) : Option (List Nat) := do
  let cid ← dictGet inputs "credential_id"
  let issuer ← dictGet inputs "issuer"
  let expStr ← dictGet inputs "expiration_date"
  let expTs ← decToNat? expStr
  let role ← dictGet inputs "role"
  let clearance ← dictGet inputs "clearance_level"
  pure [env.fieldHash cid, env.fieldHash issuer, expTs, 123456789,
        if role = "simulation_operator" then 1 else 0,
        if clearance = "top_secret" then 3 else 0]

/-- `ZKPProver._compute_witness`: compile + setup, an input-hash cache check,
the field encoding of the inputs, then the `compute-witness` backend call. -/
def compute_witness (env : PEnv) (st : ProverState) (circuit_name : String)
    (inputs : Dict) : Except String Unit × ProverState × Nat :=
  match setup_circuit env st circuit_name with
  | (.error e, st1, n) => (.error e, st1, n)
  | (.ok _, st1, n) =>
    let cache_key := circuit_name ++ ":" ++ env.inputsHash (serializeDict inputs)
    if cache_key ∈ st1.witness_cache then (.ok (), st1, n)
    else
      match witness_field_inputs env inputs with
      | none => (.error "KeyError while formatting witness inputs", st1, n)
      | some _ =>
        match env.witnessRes circuit_name with
        | .ok => (.ok (), { st1 with witness_cache := cache_key :: st1.witness_cache }, n + 1)
        | .nonZero e => (.error ("Failed to compute witness: " ++ e), st1, n + 1)
        | .timeout => (.error "ZoKrates command timed out", st1, n + 1)

/-- `ZKPProver._prepare_public_inputs`: reads `credential["type"][1]`
(an `IndexError` when the type list is shorter). -/
def prepare_public_inputs (credential : Credential) : Except String Dict :=
  match credential.typeList.get? 1 with
  | some t => .ok [("credential_id", credential.id), ("issuer", credential.issuer),
                   ("expiration_date", toString credential.expirationDate),
                   ("credential_type", t)]
  | none => .error "IndexError: list index out of range"

/-- The body of `generate_proof` inside the outer `try`, after the
proof-cache miss: prepare inputs, drive compile/setup/witness, run the
`generate-proof` backend call, attach metadata, and cache the proof.  Every
failure is an explicit `RuntimeError` carried in the `Except`. -/
def generate_proof_inner (env : PEnv) (st : ProverState) (credential : Credential)
    (proof_type : String) (private_inputs : Dict) (proof_id : String) (now : Nat) :
    Except String ProofResponse × ProverState × Nat :=
  match prepare_public_inputs credential with
  | .error e => (.error e, st, 0)
  | .ok public_inputs =>
    let witness_inputs := dictMergePy public_inputs private_inputs
    match compute_witness env st proof_type witness_inputs with
    | (.error e, st1, n) => (.error ("Error during proof generation setup: " ++ e), st1, n)
    | (.ok _, st1, n) =>
      match env.proveRes proof_type with
      | .ok =>
        let proofRead := env.proofJson proof_type
        let meta : ProofMeta :=
          { credential_id := credential.id, proof_type := proof_type, generated_at := now }
        let proofObj : ProofDict := { proofRead with metadata := some meta }
        let st2 := { st1 with proof_cache := (proof_id, proofObj) ::
                       st1.proof_cache.filter (fun e => e.fst ≠ proof_id) }
        (.ok { proof_id := proof_id, proof_type := proof_type,
               credential_id := credential.id, proof := proofObj }, st2, n + 1)
      | .nonZero e => (.error ("Error generating proof: Failed to generate proof: " ++ e), st1, n + 1)
      | .timeout => (.error ("Proof generation timed out"), st1, n + 1)

/-- `ZKPProver.generate_proof`: a proof-cache hit returns the cached proof
without any backend invocation; otherwise the pipeline runs, and the
top-level `except Exception: return None` converts every failure into
`None`. -/
def generate_proof (env : PEnv) (st : ProverState) (credential : Credential)
    (proof_type : String) (private_inputs : Dict) (now : Nat) :
    Option ProofResponse × ProverState × Nat :=
  let proof_id := generate_proof_id env credential.id proof_type
  match st.proof_cache.find? (fun e => e.fst = proof_id) with
  | some e =>
    (some { proof_id := proof_id, proof_type := proof_type,
            credential_id := credential.id, proof := e.snd }, st, 0)
  | none =>
    match generate_proof_inner env st credential proof_type private_inputs proof_id now with
    | (.ok r, st1, n) => (some r, st1, n)
    | (.error _, st1, n) => (none, st1, n)

/-- The `_ensure_circuit_ready` actually in effect (the second definition in
the class body, `src/src/zkp/zkp_prover.py:471`): its first statement is
`with self._circuit_lock:` — a synchronous `with` on an `asyncio.Lock`,
which raises `TypeError` before anything else runs. -/
def ensure_circuit_ready : Except String Unit :=
  .error "TypeError: asyncio.Lock does not support the context manager protocol"

/-- Environment hook for the `verify` backend call of `verify_proof`. -/
structure VerifyEnv extends PEnv where
  verifyRes : String → BackendRes

/-- `ZKPProver.verify_proof`: falsy proof → `False`; the circuit name comes
from the proof's own metadata (default `"access_control"`); the verifier
cache is keyed by `f"{circuit_name}:{proof['proof_id']}"` — a `KeyError`
when the dict has no `proof_id` key, caught by the top-level handler as
`False`; a cache hit returns `True`; otherwise `_ensure_circuit_ready` runs
(it raises, see `ensure_circuit_ready`, giving `False`); were it to succeed,
the `verify` backend call would decide the result and cache a success.  The
`public_inputs` argument is accepted but never read by the source. -/
def verify_proof (env : VerifyEnv) (st : ProverState) (proof : Option ProofDict)
    (public_inputs : Dict) : Bool × ProverState :=
  match proof with
  | none => (false, st)
  | some p =>
    let circuit_name := (p.metadata.map (fun m => m.proof_type)).getD "access_control"
    match p.proof_id_field with
    | none => (false, st)
    | some pid =>
      let verifier_key := circuit_name ++ ":" ++ pid
      if verifier_key ∈ st.verifier_cache then (true, st)
      else
        match ensure_circuit_ready with
        | .error _ => (false, st)
        | .ok _ =>
          match env.verifyRes circuit_name with
          | .ok => (true, { st with verifier_cache := verifier_key :: st.verifier_cache })
          | _ => (false, st)

/-! ## Access gateway (`src/sig/simulation_gateway.py`) -/

/-- An access policy as registered by `add_access_policy`:
`{"public_inputs": {...}}`. -/
structure Policy where
  public_inputs : Dict
deriving DecidableEq, Repr

/-- The pydantic `AccessRequest`: `proof_id` and `credential` are both
optional. -/
structure AccessRequest where
  proof_id : Option String
  credential : Option Credential
  resource_id : String
  action : String
deriving DecidableEq, Repr

/-- The pydantic `AccessResponse`. -/
structure AccessResponse where
  granted : Bool
  reason : Option String
  timestamp : Nat
deriving DecidableEq, Repr

/-- A Python value flowing through the gateway's `is_valid` variable and its
decision cache: either an actual boolean, or an **unawaited coroutine
object** — the gateway calls the `async` functions `verify_proof`
(simulation_gateway.py:109) and `resolve_did` (line 117) without `await`, so
these variables hold coroutine objects, which are truthy but are not valid
booleans for the pydantic `AccessResponse.granted` field. -/
inductive PyVal where
  | b (v : Bool)
  | coroutine (tag : String)
deriving DecidableEq, Repr

/-- Python truthiness of such a value: any coroutine object is truthy. -/
def pyTruthy : PyVal → Bool
  | .b v => v
  | .coroutine _ => true

/-- One entry of the append-only `access_logs` list (`granted` records the
raw `is_valid` value, which can be a coroutine object). -/
structure LogEntry where
  timestamp : Nat
  log_proof_id : Option String
  credential_id : Option String
  resource_id : String
  action : String
  granted : PyVal
  reason : String
deriving DecidableEq, Repr

/-- `SimulationGateway` state: the policy map, the audit log, the decision
cache (which stores only `(is_valid, reason)` — no insertion timestamp, and
`is_valid` can be a cached coroutine object), and the three composed
components. -/
structure GatewayState where
  access_policies : List (String × Policy)
  access_logs : List LogEntry
  access_cache : List (String × (PyVal × String))
  prover : ProverState
  vc : VCState
  didm : DIDState
deriving DecidableEq, Repr

/-- `SimulationGateway.cache_ttl = 300` — declared but never consulted by
`_check_cache`. -/
def gateway_cache_ttl : Nat := 300

/-- Environment for a gateway run: symbolic crypto plus the proof backend. -/
structure GEnv where
  crypto : CryptoEnv
  penv : VerifyEnv

/-- Python truthiness of the optional `proof_id` string
(`None` and `""` are falsy). -/
def truthyStr : Option String → Bool
  | some s => s ≠ ""
  | none => false

/-- `SimulationGateway._get_cache_key`: the proof-mode key when `proof_id`
is truthy, otherwise `request.credential['id']` — a `TypeError` when
`credential` is `None`. -/
def get_cache_key (request : AccessRequest) : Except String String :=
  match request.proof_id with
  | some s =>
    if s ≠ "" then
      .ok ("proof:" ++ s ++ ":" ++ request.resource_id ++ ":" ++ request.action)
    else
      match request.credential with
      | some c => .ok ("cred:" ++ c.id ++ ":" ++ request.resource_id ++ ":" ++ request.action)
      | none => .error "TypeError: 'NoneType' object is not subscriptable"
  | none =>
    match request.credential with
    | some c => .ok ("cred:" ++ c.id ++ ":" ++ request.resource_id ++ ":" ++ request.action)
    | none => .error "TypeError: 'NoneType' object is not subscriptable"

/-- `SimulationGateway._check_cache`: returns any cached `(is_valid, reason)`
pair for the key; it never looks at a clock or a TTL. -/
def check_cache (st : GatewayState) (cache_key : String) : Option (PyVal × String) :=
  (st.access_cache.find? (fun e => e.fst = cache_key)).map (·.snd)

/-- `SimulationGateway._update_cache` (the stored `is_valid` may be a
coroutine object). -/
def update_cache (st : GatewayState) (cache_key : String) (is_valid : PyVal)
    (reason : String) : GatewayState :=
  { st with access_cache := (cache_key, (is_valid, reason)) ::
      st.access_cache.filter (fun e => e.fst ≠ cache_key) }

/-- Outcome of `handle_access_request`: a response with the post state, an
exception escaping the handler (`crash`, carrying the state as mutated
before the raise — the gateway's caches and logs are object attributes that
survive the exception), or a never-completing `await` (`hang`). -/
inductive GResult where
  | ok (r : AccessResponse) (st : GatewayState)
  | crash (msg : String) (st : GatewayState)
  | hang (st : GatewayState)
deriving DecidableEq, Repr

/-- The tail of `handle_access_request` shared by all fall-through paths:
`_update_cache`, append the audit-log entry, then build the
`AccessResponse`.  Pydantic validates `granted: bool`, so when `is_valid` is
an (unawaited) coroutine object the construction raises a `ValidationError`
— after the cache write and the log append. -/
def finish_request (st : GatewayState) (request : AccessRequest) (cache_key : String)
    (is_valid : PyVal) (reason : String) (now : Nat) : GResult :=
  let st1 := update_cache st cache_key is_valid reason
  let entry : LogEntry :=
    { timestamp := now, log_proof_id := request.proof_id
      credential_id := request.credential.map (fun c => c.id)
      resource_id := request.resource_id, action := request.action
      granted := is_valid, reason := reason }
  let st2 := { st1 with access_logs := st1.access_logs ++ [entry] }
  match is_valid with
  | .b v => .ok { granted := v, reason := some reason, timestamp := now } st2
  | .coroutine _ =>
    .crash "pydantic ValidationError: granted is not a valid boolean" st2

/-- The credential-based branch of `handle_access_request` (its `try` body):
`resolve_did` is an `async def` called **without** `await`
(simulation_gateway.py:117), so `issuer_doc` is a truthy coroutine object —
its body (and any DID lookup, denial, or storage-reload suspension) never
runs; `if not issuer_doc` is skipped, and
`issuer_doc["verificationMethod"]` (line 126) raises `TypeError`, which the
branch's `except` turns into the denial
`"Credential verification failed: 'coroutine' object is not subscriptable"`.
`verify_credential` (line 129) and the attribute matching are unreachable. -/
def credential_branch (env : GEnv) (st : GatewayState) (request : AccessRequest)
    (c : Credential) (policy : Policy) (cache_key : String) (now : Nat) : GResult :=
  let issuer_doc : PyVal := .coroutine "DIDManager.resolve_did"
  if pyTruthy issuer_doc = false then
    .ok { granted := false, reason := some "Issuer's DID document not found", timestamp := now }
       st
  else
    finish_request st request cache_key (.b false)
      "Credential verification failed: 'coroutine' object is not subscriptable" now

/-- The proof-based branch of `handle_access_request`: look up the proof by
id in the prover's `proof_cache`; absent → an early denial
"Invalid proof ID" (returned before the cache write and the audit log).
Present → `verify_proof` is an `async def` called **without** `await`
(simulation_gateway.py:109): `is_valid` is a truthy coroutine object (the
verification body never runs), so the reason is fixed at "Access granted",
the coroutine is cached and logged, and the response construction crashes in
pydantic validation (see `finish_request`). -/
def proof_branch (env : GEnv) (st : GatewayState) (request : AccessRequest)
    (pid : String) (policy : Policy) (cache_key : String) (now : Nat) : GResult :=
  match st.prover.proof_cache.find? (fun e => e.fst = pid) with
  | none => .ok { granted := false, reason := some "Invalid proof ID", timestamp := now } st
  | some _ =>
    let is_valid : PyVal := .coroutine "ZKPProver.verify_proof"
    finish_request st request cache_key is_valid
      (if pyTruthy is_valid then "Access granted" else "Invalid proof") now

/-- `SimulationGateway.handle_access_request`: policy lookup (absent →
denial "No access policy found for resource"), decision-cache lookup (a hit
— regardless of age — is returned directly, and a cached coroutine value
crashes the response construction again), then the proof-based or
credential-based branch; with neither field present the handler falls
through to a cached, logged "Access denied" — but `_get_cache_key` has
already raised a `TypeError` in that shape. -/
def handle_access_request (env : GEnv) (st : GatewayState) (request : AccessRequest)
    (now : Nat) : GResult :=
  match st.access_policies.find? (fun e => e.fst = request.resource_id) with
  | none =>
    .ok { granted := false, reason := some "No access policy found for resource",
          timestamp := now } st
  | some pe =>
    match get_cache_key request with
    | .error m => .crash m st
    | .ok cache_key =>
      match check_cache st cache_key with
      | some cached =>
        match cached.fst with
        | .b v => .ok { granted := v, reason := some cached.snd, timestamp := now } st
        | .coroutine _ =>
          .crash "pydantic ValidationError: granted is not a valid boolean" st
      | none =>
        match request.proof_id with
        | some s =>
          if s ≠ "" then proof_branch env st request s pe.snd cache_key now
          else
            match request.credential with
            | some c => credential_branch env st request c pe.snd cache_key now
            | none => finish_request st request cache_key (.b false) "Access denied" now
        | none =>
          match request.credential with
          | some c => credential_branch env st request c pe.snd cache_key now
          | none => finish_request st request cache_key (.b false) "Access denied" now

/-- `SimulationGateway.add_access_policy`. -/
def add_access_policy (st : GatewayState) (resource_id : String) (policy : Policy) :
    GatewayState :=
  { st with access_policies := (resource_id, policy) ::
      st.access_policies.filter (fun e => e.fst ≠ resource_id) }

/-! ## Concrete instances used by counterexamples and witnesses -/

/-- A concrete symbolic key correspondence. -/
def cEnv : CryptoEnv := { pubOf := fun s => "pub:" ++ s }

/-- One concrete issuance: operator credential signed by the commander key,
30 days of validity, issued at epoch second 1000. -/
def c2issue : Credential × VCState :=
  issue_credential vcInit "did:key:op" "did:key:cmd" "simulation_access"
    [("role", "operator"), ("clearance_level", "high")] "PRIV-CMD" 30 1000

/-- The credential produced by `c2issue`. -/
def c2cred : Credential := c2issue.fst

/-- A proof-pipeline environment in which every backend call succeeds. -/
def pEnvOk : PEnv :=
  { circuitExists := fun _ => true
    fileHash := fun s => "h-" ++ s
    inputsHash := fun s => "ih-" ++ s
    compileRes := fun _ => .ok
    setupRes := fun _ => .ok
    witnessRes := fun _ => .ok
    proveRes := fun _ => .ok
    proofIdHash := fun s => "pid-" ++ s
    fieldHash := fun _ => 7
    proofJson := fun _ => { blob := "backend-blob", metadata := none, proof_id_field := none } }

/-- Private inputs carrying the keys `_compute_witness` reads. -/
def c4priv : Dict := [("role", "operator"), ("clearance_level", "high")]

/-- A gateway environment over the all-succeeding backend. -/
def gEnv0 : GEnv := { crypto := cEnv, penv := { toPEnv := pEnvOk, verifyRes := fun _ => .ok } }

/-- Fresh gateway state (no policies, empty caches, fresh components). -/
def gwInit : GatewayState :=
  { access_policies := [], access_logs := [], access_cache := [],
    prover := proverInit, vc := vcInit, didm := didInit }

/-! ## C10 — revoking an unknown credential id -/

/-- **C10.** For every credential id absent from `issued_vcs`,
`revoke_credential` returns `False` and leaves the state (both the
revocation set and the issued store) unchanged; and any id present in the
revocation set after a call was either already revoked or is the argument id
and was previously issued. -/
theorem revoke_unknown_id_is_noop (st : VCState) (credential_id : String) :
    ((st.issued_vcs.find? (fun e => e.fst = credential_id) = none) →
      revoke_credential st credential_id = (false, st)) ∧
    (∀ x, x ∈ (revoke_credential st credential_id).snd.revoked_vcs →
      x ∈ st.revoked_vcs ∨
        (x = credential_id ∧
          (st.issued_vcs.find? (fun e => e.fst = credential_id)).isSome = true)) := by
  constructor
  · intro h
    simp [revoke_credential, h]
  · intro x hx
    by_cases h : (st.issued_vcs.find? (fun e => e.fst = credential_id)).isSome = true
    · simp [revoke_credential, h] at hx
      rcases hx with hx | hx
      · exact Or.inr ⟨hx, h⟩
      · exact Or.inl hx
    · simp [revoke_credential, h] at hx
      exact Or.inl hx

/-- Witness for C10 at a concrete input: the fresh store does not contain
`"vc:ghost"`, so revoking it returns `False` and changes nothing. -/
theorem revoke_unknown_id_is_noop_witness :
    revoke_credential vcInit "vc:ghost" = (false, vcInit) :=
  (revoke_unknown_id_is_noop vcInit "vc:ghost").1 (by decide)

/-! ## C2 — issue-then-verify -/

/-- **C2 (code bug).** `issue_credential` followed by `verify_credential`
with the matching issuer public key returns `false`, not `true`, although
the credential is unexpired, unrevoked, and its JWT signature verifies: the
payload-consistency check reads `payload["id"]`, and the JWT payload built
at issuance has keys `{iss, sub, iat, exp, jti, vc}` only, so the lookup
raises `KeyError` and the handler returns `False`.  Evaluated here at the
concrete failing input `c2issue` / `c2cred` (verification one second after
issuance, with the issuer's matching public key). -/
theorem issue_then_verify_returns_false :
    (verify_credential cEnv c2issue.snd c2cred "pub:PRIV-CMD" 1001).fst = false ∧
    1001 ≤ c2cred.expirationDate ∧
    c2cred.id ∉ c2issue.snd.revoked_vcs ∧
    c2cred.proof.map (fun prf => (jwtDecode cEnv prf.jwt "pub:PRIV-CMD").isSome) = some true ∧
    c2cred.proof.map (fun prf => jGet prf.jwt.payload "id") = some none := by
  decide

/-! ## C3 — CreateDID never returns -/

/-- **C3 (code bug).** `create_did` never terminates with a success value:
holding `self._lock`, it awaits `_save_documents`, which re-acquires the
same non-reentrant `asyncio.Lock`, so the coroutine suspends forever for
every participant type, key seed, time, and starting state. -/
theorem create_did_always_deadlocks (env : DIDEnv) (st : DIDState)
    (participant_type : String) (seed now : Nat) :
    ∃ st1, create_did env st participant_type seed now = .hang st1 :=
  ⟨_, rfl⟩

/-! ## C9 — missing policy always denies -/

/-- A concrete no-policy request (proof-shaped). -/
def req9 : AccessRequest :=
  { proof_id := some "p1", credential := none, resource_id := "r", action := "execute" }

/-- **C9 counterexample.** On a resource with no registered policy the code
denies with the reason string `"No access policy found for resource"`, which
is not the string `"no policy for resource"` stated by the claim. -/
theorem no_policy_reason_string_differs :
    handle_access_request gEnv0 gwInit req9 0 =
      .ok { granted := false, reason := some "No access policy found for resource",
            timestamp := 0 } gwInit ∧
    ("No access policy found for resource" : String) ≠ "no policy for resource" := by
  decide

/-- **C9 (amended).** For every request shape, `handle_access_request` on a
resource with no registered policy returns a denial with reason
`"No access policy found for resource"`, leaving the state untouched. -/
theorem no_policy_always_denies (env : GEnv) (st : GatewayState)
    (request : AccessRequest) (now : Nat)
    (h : st.access_policies.find? (fun e => e.fst = request.resource_id) = none) :
    handle_access_request env st request now =
      .ok { granted := false, reason := some "No access policy found for resource",
            timestamp := now } st := by
  simp [handle_access_request, h]

/-- Witness for C9 at a concrete input: the fresh gateway has no policy for
`"r"`, and a credential-shaped request is denied with the code's reason. -/
theorem no_policy_always_denies_witness :
    handle_access_request gEnv0 gwInit
      { proof_id := none, credential := some c2cred, resource_id := "r", action := "run" } 3 =
      .ok { granted := false, reason := some "No access policy found for resource",
            timestamp := 3 } gwInit :=
  no_policy_always_denies gEnv0 gwInit _ 3 (by decide)

/-! ## C4 — GenerateProof idempotence -/

/-- After a successful `generate_proof`, the returned `proof_id` is
`generate_proof_id` of the credential id and proof type, and that id is
present in the resulting proof cache. -/
theorem generate_proof_success_cached (env : PEnv) (st : ProverState)
    (credential : Credential) (proof_type : String) (private_inputs : Dict) (now : Nat)
    (r : ProofResponse) (st1 : ProverState) (n : Nat)
    (h : generate_proof env st credential proof_type private_inputs now = (some r, st1, n)) :
    r.proof_id = generate_proof_id env credential.id proof_type ∧
    (st1.proof_cache.find?
      (fun e => e.fst = generate_proof_id env credential.id proof_type)).isSome = true := by
  simp only [generate_proof] at h
  cases hfind : st.proof_cache.find?
      (fun e => e.fst = generate_proof_id env credential.id proof_type) with
  | some e =>
    rw [hfind] at h
    simp only [Prod.mk.injEq, Option.some.injEq] at h
    obtain ⟨hr, hst, -⟩ := h
    subst hst
    constructor
    · rw [← hr]
    · rw [hfind]; rfl
  | none =>
    rw [hfind] at h
    simp only [generate_proof_inner] at h
    cases hp : prepare_public_inputs credential with
    | error e => simp only [hp] at h; simp at h
    | ok pub =>
      simp only [hp] at h
      rcases hw : compute_witness env st proof_type (dictMergePy pub private_inputs)
        with ⟨wres, wst, wn⟩
      rw [hw] at h
      cases wres with
      | error e => simp at h
      | ok u =>
        cases hpr : env.proveRes proof_type with
        | ok =>
          simp only [hpr, Prod.mk.injEq, Option.some.injEq] at h
          obtain ⟨hr, hst, -⟩ := h
          subst hst
          refine ⟨by rw [← hr], ?_⟩
          rw [List.find?_cons_of_pos _ (by simp)]
          rfl
        | nonZero msg => simp [hpr] at h
        | timeout => simp [hpr] at h

/-- **C4.** `generate_proof` is idempotent: after a successful call, any
second call with a credential bearing the same `credentialId` and the same
`proofType` succeeds from the cache with an identical `proofId` and zero
backend invocations; and `generate_proof_id` is a deterministic function of
`(credentialId, proofType, issuanceDate)` (it reads only the first two). -/
theorem generate_proof_idempotent (env : PEnv) (st : ProverState)
    (credential : Credential) (proof_type : String) (private_inputs : Dict) (now : Nat)
    (r1 : ProofResponse) (st1 : ProverState) (n1 : Nat)
    (h : generate_proof env st credential proof_type private_inputs now = (some r1, st1, n1)) :
    (∀ (credential2 : Credential) (private_inputs2 : Dict) (now2 : Nat),
      credential2.id = credential.id →
      ∃ r2 st2, generate_proof env st1 credential2 proof_type private_inputs2 now2 =
          (some r2, st2, 0) ∧ r2.proof_id = r1.proof_id) ∧
    (∀ (c1 c2 : Credential) (pt : String), c1.id = c2.id → c1.issuanceDate = c2.issuanceDate →
      generate_proof_id env c1.id pt = generate_proof_id env c2.id pt) := by
  obtain ⟨hid, hcached⟩ :=
    generate_proof_success_cached env st credential proof_type private_inputs now r1 st1 n1 h
  constructor
  · intro credential2 private_inputs2 now2 hid2
    cases hfind : st1.proof_cache.find?
        (fun e => e.fst = generate_proof_id env credential2.id proof_type) with
    | none =>
      rw [hid2] at hfind
      rw [hfind] at hcached
      simp at hcached
    | some e =>
      refine ⟨{ proof_id := generate_proof_id env credential2.id proof_type,
                proof_type := proof_type, credential_id := credential2.id, proof := e.snd },
              st1, ?_, ?_⟩
      · simp only [generate_proof]
        rw [hfind]
      · simp only []
        rw [hid2, hid]
  · intro c1 c2 pt h1 _
    rw [h1]

/-- Witness state: the proof cache after one successful generation. -/
def c4run : Option ProofResponse × ProverState × Nat :=
  generate_proof pEnvOk proverInit c2cred "access_control" c4priv 0

/-- Witness for C4: the concrete first call `c4run` succeeds, and the second
call with the same credential and proof type returns the same `proofId` with
zero backend invocations. -/
theorem generate_proof_idempotent_witness :
    ∃ r2 st2,
      generate_proof pEnvOk c4run.2.1 c2cred "access_control" c4priv 5 = (some r2, st2, 0) ∧
      r2.proof_id = "pid-vc:did:key:op:simulation_access:1000:access_control" :=
  (generate_proof_idempotent pEnvOk proverInit c2cred "access_control" c4priv 0
      { proof_id := "pid-vc:did:key:op:simulation_access:1000:access_control"
        proof_type := "access_control"
        credential_id := "vc:did:key:op:simulation_access:1000"
        proof := { blob := "backend-blob", proof_id_field := none
                   metadata := some { credential_id := "vc:did:key:op:simulation_access:1000"
                                      proof_type := "access_control", generated_at := 0 } } }
      c4run.2.1 c4run.2.2 (by rfl)).1 c2cred c4priv 5 rfl

/-! ## C7 — backend failures during proof generation -/

/-- A proof-pipeline environment whose `compile` subprocess exits non-zero. -/
def pEnvFail : PEnv := { pEnvOk with compileRes := fun _ => .nonZero "exit status 1" }

/-- **C7 counterexample.** With the backend exiting non-zero,
`generate_proof` returns `None` — the "no proof" value of its
`Optional` return type — to its caller, even though an explicit
`RuntimeError` was raised inside the pipeline (visible on
`generate_proof_inner`): the top-level `except Exception: return None`
swallows it.  The claim's "surfaced to the caller as an explicit error" is
therefore false at this input. -/
theorem backend_failure_returns_none :
    (generate_proof pEnvFail proverInit c2cred "access_control" c4priv 0).1 = none ∧
    (∃ e st1 n,
      generate_proof_inner pEnvFail proverInit c2cred "access_control" c4priv
        (generate_proof_id pEnvFail c2cred.id "access_control") 0 = (.error e, st1, n)) := by
  refine ⟨by decide, ⟨_, _, _, rfl⟩⟩

/-- A non-zero exit or timeout of the compile subprocess (on a content-hash
cache miss, with the circuit source present) makes `compile_circuit` raise. -/
theorem compile_circuit_backend_failure (env : PEnv) (st : ProverState) (pt : String)
    (hex : env.circuitExists pt = true) (hnc : env.fileHash pt ∉ st.circuit_cache) :
    (∀ msg, env.compileRes pt = .nonZero msg →
      compile_circuit env st pt =
        (.error ("Error compiling circuit: ZoKrates command failed: " ++ msg), st, 1)) ∧
    (env.compileRes pt = .timeout →
      compile_circuit env st pt =
        (.error "Error compiling circuit: ZoKrates command timed out", st, 1)) := by
  constructor
  · intro msg hres
    simp [compile_circuit, hex, hnc, hres]
  · intro hres
    simp [compile_circuit, hex, hnc, hres]

/-- A compile failure propagates through `setup_circuit`. -/
theorem setup_error_of_compile_error (env : PEnv) (st : ProverState) (pt : String)
    (e : String) (st1 : ProverState) (n : Nat)
    (h : compile_circuit env st pt = (.error e, st1, n)) :
    setup_circuit env st pt = (.error e, st1, n) := by
  simp only [setup_circuit]
  rw [h]

/-- A setup failure propagates through `compute_witness`. -/
theorem witness_error_of_setup_error (env : PEnv) (st : ProverState) (pt : String)
    (inputs : Dict) (e : String) (st1 : ProverState) (n : Nat)
    (h : setup_circuit env st pt = (.error e, st1, n)) :
    compute_witness env st pt inputs = (.error e, st1, n) := by
  simp only [compute_witness]
  rw [h]

/-- **C7 (amended).** On a proof-cache miss, a failing backend produces an
explicit `RuntimeError` inside the generation pipeline
(`generate_proof_inner` returns an error for a non-zero exit and for a
timeout of the compile step), but `generate_proof` catches every exception
at its top level and returns `None` to the caller in exactly the failing
runs. -/
theorem generate_proof_swallows_errors (env : PEnv) (st : ProverState)
    (credential : Credential) (proof_type : String) (private_inputs : Dict) (now : Nat)
    (hmiss : st.proof_cache.find?
      (fun e => e.fst = generate_proof_id env credential.id proof_type) = none) :
    (∀ e st1 n,
      generate_proof_inner env st credential proof_type private_inputs
          (generate_proof_id env credential.id proof_type) now = (.error e, st1, n) →
      generate_proof env st credential proof_type private_inputs now = (none, st1, n)) ∧
    (∀ msg, env.circuitExists proof_type = true →
      env.fileHash proof_type ∉ st.circuit_cache →
      env.compileRes proof_type = .nonZero msg →
      ∃ e st1 n, generate_proof_inner env st credential proof_type private_inputs
          (generate_proof_id env credential.id proof_type) now = (.error e, st1, n)) ∧
    (env.circuitExists proof_type = true →
      env.fileHash proof_type ∉ st.circuit_cache →
      env.compileRes proof_type = .timeout →
      ∃ e st1 n, generate_proof_inner env st credential proof_type private_inputs
          (generate_proof_id env credential.id proof_type) now = (.error e, st1, n)) := by
  refine ⟨?_, ?_, ?_⟩
  · intro e st1 n hinner
    simp only [generate_proof]
    rw [hmiss, hinner]
  · intro msg hex hnc hres
    cases hp : prepare_public_inputs credential with
    | error e => exact ⟨e, st, 0, by simp [generate_proof_inner, hp]⟩
    | ok pub =>
      have hc := (compile_circuit_backend_failure env st proof_type hex hnc).1 msg hres
      have hw := witness_error_of_setup_error env st proof_type
        (dictMergePy pub private_inputs) _ _ _
        (setup_error_of_compile_error env st proof_type _ _ _ hc)
      refine ⟨"Error during proof generation setup: " ++
        ("Error compiling circuit: ZoKrates command failed: " ++ msg), st, 1, ?_⟩
      simp only [generate_proof_inner, hp]
      rw [hw]
  · intro hex hnc hres
    cases hp : prepare_public_inputs credential with
    | error e => exact ⟨e, st, 0, by simp [generate_proof_inner, hp]⟩
    | ok pub =>
      have hc := (compile_circuit_backend_failure env st proof_type hex hnc).2 hres
      have hw := witness_error_of_setup_error env st proof_type
        (dictMergePy pub private_inputs) _ _ _
        (setup_error_of_compile_error env st proof_type _ _ _ hc)
      refine ⟨"Error during proof generation setup: " ++
        "Error compiling circuit: ZoKrates command timed out", st, 1, ?_⟩
      simp only [generate_proof_inner, hp]
      rw [hw]

/-- Witness for C7 (amended) at a concrete input: the fresh cache misses,
the circuit exists, its hash is uncached, and the compile subprocess exits
non-zero; the resulting pipeline error is returned to the caller as `None`. -/
theorem generate_proof_swallows_errors_witness :
    ∃ e st1 n,
      generate_proof_inner pEnvFail proverInit c2cred "access_control" c4priv
        (generate_proof_id pEnvFail c2cred.id "access_control") 0 = (.error e, st1, n) :=
  (generate_proof_swallows_errors pEnvFail proverInit c2cred "access_control" c4priv 0
      (by decide)).2.1 "exit status 1" (by decide) (by decide) (by decide)

/-! ## C5 — revocation makes verification fail, over whole system histories

The claim quantifies over issued credentials and over every subsequent
verification call, so it is settled over traces of `VCManager` operations:
issuance, verification of a stored credential, and revocation. -/

/-- One `VCManager` API call, paired with the wall-clock second it runs at.
`verify` names a stored credential by id and is a no-op if the id was never
issued (the claim only concerns issued credentials). -/
inductive VCOp where
  | issue (subject_did issuer_did credential_type : String) (attributes : Dict)
      (private_key_pem : String) (validity_days : Nat)
  | verify (credential_id : String) (issuer_public_key_pem : String)
  | revoke (credential_id : String)

/-- Execute one operation against the `VCManager` state. -/
def vcExecOp (env : CryptoEnv) (st : VCState) (op : VCOp) (now : Nat) : VCState :=
  match op with
  | .issue s i c a p v => (issue_credential st s i c a p v now).snd
  | .verify cid pub =>
    match st.issued_vcs.find? (fun e => e.fst = cid) with
    | some e => (verify_credential env st e.snd pub now).snd
    | none => st
  | .revoke cid => (revoke_credential st cid).snd

/-- Execute a timed trace of `VCManager` operations. -/
def vcExecTrace (env : CryptoEnv) (st : VCState) : List (VCOp × Nat) → VCState
  | [] => st
  | (op, t) :: rest => vcExecTrace env (vcExecOp env st op t) rest

/-- A credential has the JWT shape produced by `issue_credential`: its proof
envelope, when present, carries a payload with no `"id"` member. -/
def IssuedShape (c : Credential) : Prop :=
  ∀ prf, c.proof = some prf → jGet prf.jwt.payload "id" = none

/-- Invariant tying the claim together: every cached verification result is
`false`, and every stored credential has the issued JWT shape. -/
def VCInv (st : VCState) : Prop :=
  (∀ e, e ∈ st.verification_cache → e.snd.fst = false) ∧
  (∀ e, e ∈ st.issued_vcs → IssuedShape e.snd)

/-- `verify_core` never touches the issued-credential store. -/
theorem verify_core_keeps_issued (env : CryptoEnv) (st : VCState) (c : Credential)
    (pub : String) (now : Nat) (k : String) :
    (verify_core env st c pub now k).snd.issued_vcs = st.issued_vcs := by
  simp only [verify_core]
  split
  · rfl
  · split
    · rfl
    · split <;> rfl

/-- `verify_credential` never touches the issued-credential store. -/
theorem verify_credential_keeps_issued (env : CryptoEnv) (st : VCState) (c : Credential)
    (pub : String) (now : Nat) :
    (verify_credential env st c pub now).snd.issued_vcs = st.issued_vcs := by
  simp only [verify_credential]
  split
  · split
    · rfl
    · exact verify_core_keeps_issued env _ c pub now _
  · exact verify_core_keeps_issued env st c pub now _

/-- `verify_core` on an issued-shaped credential always computes `false`
(revoked → `false`; expired → `false`; otherwise the `payload["id"]` lookup
raises `KeyError`), and it caches only `false` results. -/
theorem verify_core_issued_false (env : CryptoEnv) (st : VCState) (c : Credential)
    (pub : String) (now : Nat) (k : String)
    (hshape : IssuedShape c) (hcache : ∀ e, e ∈ st.verification_cache → e.snd.fst = false) :
    (verify_core env st c pub now k).fst = false ∧
    (∀ e, e ∈ (verify_core env st c pub now k).snd.verification_cache → e.snd.fst = false) := by
  have hput : ∀ e, e ∈ vcCachePut st.verification_cache k false now → e.snd.fst = false := by
    intro e he
    rcases List.mem_cons.mp he with h | h
    · rw [h]
    · exact hcache e (List.mem_of_mem_filter h)
  unfold verify_core
  by_cases hrev : c.id ∈ st.revoked_vcs
  · rw [if_pos hrev]
    exact ⟨rfl, hput⟩
  · rw [if_neg hrev]
    by_cases hexp : c.expirationDate < now
    · rw [if_pos hexp]
      exact ⟨rfl, hput⟩
    · rw [if_neg hexp]
      have hres : (do
          let prf ← c.proof
          let payload ← jwtDecode env prf.jwt pub
          let idVal ← jGet payload "id"
          pure (idVal = JVal.s c.id) : Option Bool) = none := by
        cases hprf : c.proof with
        | none => rfl
        | some prf =>
          have hid := hshape prf hprf
          unfold jwtDecode
          by_cases hk : env.pubOf prf.jwt.signedWith = pub
          · simp [hk, hid]
          · simp [hk]
      rw [hres]
      exact ⟨rfl, hput⟩

/-- `verify_credential` on an issued-shaped credential returns `false` in
every state satisfying the cache invariant, and preserves the invariant. -/
theorem verify_credential_issued_false (env : CryptoEnv) (st : VCState) (c : Credential)
    (pub : String) (now : Nat)
    (hshape : IssuedShape c) (hcache : ∀ e, e ∈ st.verification_cache → e.snd.fst = false) :
    (verify_credential env st c pub now).fst = false ∧
    (∀ e, e ∈ (verify_credential env st c pub now).snd.verification_cache →
      e.snd.fst = false) := by
  simp only [verify_credential]
  cases hfind : st.verification_cache.find? (fun e => e.fst = c.id ++ ":" ++ pub) with
  | some e =>
    have hmem := List.mem_of_find?_eq_some hfind
    by_cases hfresh : now - e.snd.snd < vc_cache_ttl
    · dsimp only
      rw [if_pos hfresh]
      exact ⟨hcache e hmem, hcache⟩
    · dsimp only
      rw [if_neg hfresh]
      exact verify_core_issued_false env
        { st with verification_cache :=
            st.verification_cache.filter (fun q => q.fst ≠ c.id ++ ":" ++ pub) }
        c pub now (c.id ++ ":" ++ pub) hshape
        (fun q hq => hcache q (List.mem_of_mem_filter hq))
  | none =>
    exact verify_core_issued_false env st c pub now _ hshape hcache

/-- Each `VCManager` operation preserves `VCInv`. -/
theorem vcExecOp_preserves_inv (env : CryptoEnv) (st : VCState) (op : VCOp) (now : Nat)
    (h : VCInv st) : VCInv (vcExecOp env st op now) := by
  obtain ⟨hcache, hissued⟩ := h
  cases op with
  | issue s i c a p v =>
    refine ⟨hcache, ?_⟩
    intro e he
    simp only [vcExecOp, issue_credential] at he
    rcases List.mem_cons.mp he with hh | hh
    · subst hh
      intro prf hprf
      simp only [Option.some.injEq] at hprf
      rw [← hprf]
      rfl
    · exact hissued e (List.mem_of_mem_filter hh)
  | verify cid pub =>
    simp only [vcExecOp]
    cases hfind : st.issued_vcs.find? (fun e => e.fst = cid) with
    | none => exact ⟨hcache, hissued⟩
    | some e =>
      have hmem := List.mem_of_find?_eq_some hfind
      have hshape := hissued e hmem
      have hv := verify_credential_issued_false env st e.snd pub now hshape hcache
      refine ⟨hv.2, ?_⟩
      intro q hq
      apply hissued
      rw [verify_credential_keeps_issued env st e.snd pub now] at hq
      exact hq
  | revoke cid =>
    simp only [vcExecOp, revoke_credential]
    split <;> exact ⟨hcache, hissued⟩

/-- A whole trace preserves `VCInv`. -/
theorem vcExecTrace_preserves_inv (env : CryptoEnv) :
    ∀ (tr : List (VCOp × Nat)) (st : VCState), VCInv st → VCInv (vcExecTrace env st tr)
  | [], _, h => h
  | (op, t) :: rest, st, h =>
    vcExecTrace_preserves_inv env rest _ (vcExecOp_preserves_inv env st op t h)

/-- **C5.** In any state reachable by a trace of `VCManager` operations from
a fresh manager, a stored credential whose id has been added to the
revocation set fails every subsequent `verify_credential` call — with any
public key and at any time, in particular when the signature is valid and
the credential unexpired. -/
theorem revoked_credential_never_verifies (env : CryptoEnv) (tr : List (VCOp × Nat))
    (cid : String) (c : Credential) (pub : String) (now : Nat)
    (hstored : (cid, c) ∈ (vcExecTrace env vcInit tr).issued_vcs)
    (hrevoked : cid ∈ (vcExecTrace env vcInit tr).revoked_vcs) :
    (verify_credential env (vcExecTrace env vcInit tr) c pub now).fst = false := by
  have hinv : VCInv (vcExecTrace env vcInit tr) := by
    apply vcExecTrace_preserves_inv
    exact ⟨fun e he => absurd he (List.not_mem_nil e), fun e he => absurd he (List.not_mem_nil e)⟩
  exact (verify_credential_issued_false env _ c pub now
    (hinv.2 (cid, c) hstored) hinv.1).1

/-- Witness for C5 at a concrete trace: issue the operator credential at
second 1000, revoke it at second 1001; verifying it at second 1002 with the
issuer's matching public key returns `false`. -/
theorem revoked_credential_never_verifies_witness :
    (verify_credential cEnv
      (vcExecTrace cEnv vcInit
        [(.issue "did:key:op" "did:key:cmd" "simulation_access"
            [("role", "operator"), ("clearance_level", "high")] "PRIV-CMD" 30, 1000),
         (.revoke "vc:did:key:op:simulation_access:1000", 1001)])
      c2cred "pub:PRIV-CMD" 1002).fst = false :=
  revoked_credential_never_verifies cEnv
    [(.issue "did:key:op" "did:key:cmd" "simulation_access"
        [("role", "operator"), ("clearance_level", "high")] "PRIV-CMD" 30, 1000),
     (.revoke "vc:did:key:op:simulation_access:1000", 1001)]
    "vc:did:key:op:simulation_access:1000" c2cred "pub:PRIV-CMD" 1002
    (by decide) (by decide)

/-! ## C1 — proof-based access decisions -/

/-- A gateway state with a registered policy for `"tactical_simulation"` and
an empty proof cache. -/
def gwC1 : GatewayState :=
  { gwInit with access_policies :=
      [("tactical_simulation",
        { public_inputs := [("required_role", "operator"), ("required_clearance", "high")] })] }

/-- `gwC1` with the proof `"p1"` present in the pipeline's proof cache. -/
def gwC1p : GatewayState :=
  { gwC1 with prover := { proverInit with
      proof_cache := [("p1", { blob := "b", metadata := none, proof_id_field := none })] } }

/-- The proof-based request whose proofId is in the pipeline's cache. -/
def reqC1p : AccessRequest :=
  { proof_id := some "p1", credential := none,
    resource_id := "tactical_simulation", action := "execute" }

/-- The crash message of a gateway call, if it crashed. -/
def gresultCrashMsg : GResult → Option String
  | .crash m _ => some m
  | _ => none

/-- The mutated state a gateway crash left behind, if it crashed. -/
def gresultCrashState : GResult → Option GatewayState
  | .crash _ st => some st
  | _ => none

/-- **C1 (code bug).** Evaluating the handler at the failing input: for a
proofId present in the pipeline's cache (policy registered, no cached
decision), the gateway never makes a verify-dependent decision — the
unawaited `verify_proof` coroutine is truthy, the reason is fixed at
"Access granted", the decision `(coroutine, "Access granted")` is cached,
and the response construction crashes in pydantic validation instead of
granting iff `VerifyProof` succeeds.  For a proofId absent from the cache
the handler denies, with the reason string `"Invalid proof ID"` (not the
claim's `"invalid proof id"`). -/
theorem proof_mode_crashes_instead_of_verifying :
    gresultCrashMsg (handle_access_request gEnv0 gwC1p reqC1p 7) =
      some "pydantic ValidationError: granted is not a valid boolean" ∧
    (gresultCrashState (handle_access_request gEnv0 gwC1p reqC1p 7)).map
      (fun st1 => check_cache st1 "proof:p1:tactical_simulation:execute") =
      some (some (.coroutine "ZKPProver.verify_proof", "Access granted")) ∧
    handle_access_request gEnv0 gwC1p
      { proof_id := some "fabricated", credential := none,
        resource_id := "tactical_simulation", action := "execute" } 7 =
      .ok { granted := false, reason := some "Invalid proof ID", timestamp := 7 } gwC1p ∧
    ("Invalid proof ID" : String) ≠ "invalid proof id" := by
  decide

/-! ## C8 — gateway failure containment -/

/-- **C8 counterexample.** A request with neither `proofId` nor `credential`
on a resource that has a registered policy makes `handle_access_request`
crash: `_get_cache_key` evaluates `request.credential['id']` on `None` and
the resulting `TypeError` is raised past the gateway boundary instead of
becoming a denial. -/
theorem neither_field_request_crashes :
    handle_access_request gEnv0 gwC1
      { proof_id := none, credential := none,
        resource_id := "tactical_simulation", action := "execute" } 4 =
      .crash "TypeError: 'NoneType' object is not subscriptable" gwC1 := by
  decide

/-- **C8 (amended).** On a resource with a registered policy:
a request with neither field raises a `TypeError` from cache-key computation
past the gateway boundary; every credential-bearing request (no cached
decision) is degraded to the denial
`"Credential verification failed: 'coroutine' object is not subscriptable"`
— the unawaited `resolve_did` makes the issuer document a truthy coroutine,
so this single `except`-produced denial is what every business failure
collapses to; a proof-based request with an unknown proofId is denied
`"Invalid proof ID"`; a proof-based request whose proofId is in the proof
cache crashes in pydantic validation after caching
`(coroutine, "Access granted")`; and a cached boolean decision is served
as-is. -/
theorem gateway_decision_totality (env : GEnv) (st : GatewayState)
    (request : AccessRequest) (now : Nat) (pe : String × Policy)
    (hpol : st.access_policies.find? (fun e => e.fst = request.resource_id) = some pe) :
    (request.proof_id = none → request.credential = none →
      handle_access_request env st request now =
        .crash "TypeError: 'NoneType' object is not subscriptable" st) ∧
    (∀ c, truthyStr request.proof_id = false → request.credential = some c →
      check_cache st ("cred:" ++ c.id ++ ":" ++ request.resource_id ++ ":" ++ request.action)
        = none →
      ∃ st1, handle_access_request env st request now =
        .ok { granted := false,
              reason := some
                "Credential verification failed: 'coroutine' object is not subscriptable",
              timestamp := now } st1) ∧
    (∀ s, request.proof_id = some s → s ≠ "" →
      check_cache st ("proof:" ++ s ++ ":" ++ request.resource_id ++ ":" ++ request.action)
        = none →
      st.prover.proof_cache.find? (fun q => q.fst = s) = none →
      handle_access_request env st request now =
        .ok { granted := false, reason := some "Invalid proof ID", timestamp := now } st) ∧
    (∀ s e, request.proof_id = some s → s ≠ "" →
      check_cache st ("proof:" ++ s ++ ":" ++ request.resource_id ++ ":" ++ request.action)
        = none →
      st.prover.proof_cache.find? (fun q => q.fst = s) = some e →
      gresultCrashMsg (handle_access_request env st request now) =
        some "pydantic ValidationError: granted is not a valid boolean" ∧
      (gresultCrashState (handle_access_request env st request now)).map
        (fun st1 => check_cache st1
          ("proof:" ++ s ++ ":" ++ request.resource_id ++ ":" ++ request.action)) =
        some (some (.coroutine "ZKPProver.verify_proof", "Access granted"))) ∧
    (∀ k v r, get_cache_key request = .ok k → check_cache st k = some (.b v, r) →
      handle_access_request env st request now =
        .ok { granted := v, reason := some r, timestamp := now } st) := by
  rcases request with ⟨opid, ocred, rid, act⟩
  have hcredkey : ∀ c : Credential, ocred = some c → truthyStr opid = false →
      get_cache_key ⟨opid, some c, rid, act⟩ =
        .ok ("cred:" ++ c.id ++ ":" ++ rid ++ ":" ++ act) := by
    intro c hc hfalsy
    rcases opid with _ | s
    · rfl
    · simp only [truthyStr] at hfalsy
      simp only [get_cache_key]
      rw [if_neg (by simpa using hfalsy)]
  refine ⟨?_, ?_, ?_, ?_, ?_⟩
  · intro hp hc
    subst hp
    subst hc
    simp [handle_access_request, hpol, get_cache_key]
  · intro c hfalsy hcred hnc
    subst hcred
    have hkey := hcredkey c rfl hfalsy
    simp only [handle_access_request, hpol, hkey]
    rw [hnc]
    have hbranch : ∀ key, ∃ st1,
        credential_branch env st ⟨opid, some c, rid, act⟩ c pe.snd key now =
          .ok { granted := false,
                reason := some
                  "Credential verification failed: 'coroutine' object is not subscriptable",
                timestamp := now } st1 := by
      intro key
      simp only [credential_branch]
      rw [if_neg (by decide)]
      simp only [finish_request]
      exact ⟨_, rfl⟩
    rcases opid with _ | s
    · exact hbranch _
    · have hs : ¬ s ≠ "" := by
        simp only [truthyStr] at hfalsy
        simpa using hfalsy
      dsimp only
      rw [if_neg hs]
      exact hbranch _
  · intro s hps hs hnc hfind
    subst hps
    simp only [handle_access_request, hpol, get_cache_key]
    rw [if_pos hs]
    dsimp only
    rw [hnc]
    dsimp only
    rw [if_pos hs]
    simp only [proof_branch, hfind]
  · intro s e hps hs hnc hfind
    subst hps
    have hhandle : handle_access_request env st ⟨some s, ocred, rid, act⟩ now =
        proof_branch env st ⟨some s, ocred, rid, act⟩ s pe.snd
          ("proof:" ++ s ++ ":" ++ rid ++ ":" ++ act) now := by
      simp only [handle_access_request, hpol, get_cache_key]
      rw [if_pos hs]
      dsimp only
      rw [hnc]
      dsimp only
      rw [if_pos hs]
    rw [hhandle]
    simp only [proof_branch, hfind, finish_request, pyTruthy]
    constructor
    · rfl
    · simp only [gresultCrashState, Option.map_some]
      simp [check_cache, update_cache]
  · intro k v r hkey hcached
    simp only [handle_access_request, hpol, hkey, hcached]

/-- Witness for C8 (amended) at a concrete input: the credential-based
request on `gwC1` is degraded to the coroutine-subscript denial (the second
conjunct of the theorem, with every hypothesis discharged concretely). -/
theorem gateway_decision_totality_witness :
    ∃ st1, handle_access_request gEnv0 gwC1
      { proof_id := none, credential := some c2cred,
        resource_id := "tactical_simulation", action := "execute" } 9 =
      .ok { granted := false,
            reason := some
              "Credential verification failed: 'coroutine' object is not subscriptable",
            timestamp := 9 } st1 :=
  (gateway_decision_totality gEnv0 gwC1
    { proof_id := none, credential := some c2cred,
      resource_id := "tactical_simulation", action := "execute" } 9
    ("tactical_simulation",
      { public_inputs := [("required_role", "operator"), ("required_clearance", "high")] })
    (by decide)).2.1 c2cred (by decide) (by decide) (by decide)

/-! ## C6 — cache TTL discipline -/

/-- The response of a successful gateway call, if any. -/
def gresultResp : GResult → Option AccessResponse
  | .ok r _ => some r
  | _ => none

/-- The post state of a successful gateway call, if any. -/
def gresultState : GResult → Option GatewayState
  | .ok _ st => some st
  | _ => none

/-- Gateway state with a policy for resource `"r"`. -/
def gwC6 : GatewayState :=
  { gwInit with access_policies := [("r", { public_inputs := [] })] }

/-- The credential-based request replayed in the C6 counterexample (a
credential request is the shape whose decision the source actually caches
and returns: it is denied through the branch's `except`, see
`credential_branch`). -/
def reqC6 : AccessRequest :=
  { proof_id := none, credential := some c2cred, resource_id := "r", action := "a" }

/-- **C6 counterexample.** The gateway's decision cache stores no insertion
time and `_check_cache` never consults a TTL: the denial decision cached at
second 0 is still served, unchanged and without re-processing (the state
does not change), at second 1000000000 — far beyond the declared 300-second
`cache_ttl`.  The claim's "no read ever returns an entry older than its TTL"
is therefore false for the decision cache. -/
theorem decision_cache_never_expires :
    gresultResp (handle_access_request gEnv0 gwC6 reqC6 0) =
      some { granted := false,
             reason := some
               "Credential verification failed: 'coroutine' object is not subscriptable",
             timestamp := 0 } ∧
    ((gresultState (handle_access_request gEnv0 gwC6 reqC6 0)).map
      (fun st1 => gresultResp (handle_access_request gEnv0 st1 reqC6 1000000000))) =
      some (some { granted := false,
                   reason := some
                     "Credential verification failed: 'coroutine' object is not subscriptable",
                   timestamp := 1000000000 }) ∧
    ((gresultState (handle_access_request gEnv0 gwC6 reqC6 0)).bind
      (fun st1 => gresultState (handle_access_request gEnv0 st1 reqC6 1000000000))) =
      gresultState (handle_access_request gEnv0 gwC6 reqC6 0) ∧
    1000000000 - 0 ≥ gateway_cache_ttl := by
  decide

/-- **C6 (amended).** The DID cache and the credential-verification cache do
follow the TTL discipline: a cache hit is served exactly when
`now - insertedAt < ttl`, and an entry whose age has reached the TTL is
evicted at that lookup, resolution/verification proceeding on the state with
the expired entry removed (so an expired entry is never served). -/
theorem did_and_vc_caches_respect_ttl :
    (∀ (st : DIDState) (did : String) (now : Nat) e,
      st.did_cache.find? (fun q => q.fst = did) = some e →
      now - e.snd.snd < did_cache_ttl →
      resolve_did st did now = .ok (some e.snd.fst) st) ∧
    (∀ (st : DIDState) (did : String) (now : Nat) e,
      st.did_cache.find? (fun q => q.fst = did) = some e →
      did_cache_ttl ≤ now - e.snd.snd →
      resolve_did st did now =
        resolve_mem { st with did_cache := st.did_cache.filter (fun q => q.fst ≠ did) }
          did now) ∧
    (∀ (env : CryptoEnv) (st : VCState) (c : Credential) (pub : String) (now : Nat) e,
      st.verification_cache.find? (fun q => q.fst = c.id ++ ":" ++ pub) = some e →
      now - e.snd.snd < vc_cache_ttl →
      verify_credential env st c pub now = (e.snd.fst, st)) ∧
    (∀ (env : CryptoEnv) (st : VCState) (c : Credential) (pub : String) (now : Nat) e,
      st.verification_cache.find? (fun q => q.fst = c.id ++ ":" ++ pub) = some e →
      vc_cache_ttl ≤ now - e.snd.snd →
      verify_credential env st c pub now =
        verify_core env
          { st with verification_cache :=
              st.verification_cache.filter (fun q => q.fst ≠ c.id ++ ":" ++ pub) }
          c pub now (c.id ++ ":" ++ pub)) := by
  refine ⟨?_, ?_, ?_, ?_⟩
  · intro st did now e he hfresh
    simp only [resolve_did, he]
    rw [if_pos hfresh]
  · intro st did now e he hstale
    simp only [resolve_did, he]
    rw [if_neg (Nat.not_lt.mpr hstale)]
  · intro env st c pub now e he hfresh
    simp only [verify_credential, he]
    rw [if_pos hfresh]
  · intro env st c pub now e he hstale
    simp only [verify_credential, he]
    rw [if_neg (Nat.not_lt.mpr hstale)]

/-- A DID registry whose cache holds one entry inserted at second 0. -/
def didW : DIDState :=
  { did_documents := [], storage := none
    did_cache := [("did:key:w",
      ({ id := "did:key:w", verificationMethod := [], participantType := "observer" }, 0))] }

/-- Witness for C6 (amended): the concrete cached DID document, aged 10
seconds (within the 300-second TTL), is served from the cache. -/
theorem did_and_vc_caches_respect_ttl_witness :
    resolve_did didW "did:key:w" 10 =
      .ok (some { id := "did:key:w", verificationMethod := [], participantType := "observer" })
        didW :=
  did_and_vc_caches_respect_ttl.1 didW "did:key:w" 10
    ("did:key:w",
      ({ id := "did:key:w", verificationMethod := [], participantType := "observer" }, 0))
    (by decide) (by decide)

end LvcSsi
